import Mathlib

/-!
# Wheel-velocity conversions for the four-wheel omni robot

Shallow embedding of `esp32-wifi-velocity/velocityConversions.h`.

The header declares its constants as `double`.  Every definition below is
written over an arbitrary field `α`, with the `<cmath>` ingredients the header
uses (`M_PI`, `cos`, `sin`) passed as arguments.  The same definitions can then
be evaluated over `ℚ` and reasoned about over the exact reals by supplying
`Real.pi`, `Real.cos` and `Real.sin`.
-/

namespace VelocityConversions

/-! ## Constants of the header -/

section Constants

variable {α : Type} [Field α]

/-- Wheel constant: `constexpr double WHEEL_RADIUS = 0.02425;` -/
def WHEEL_RADIUS : α := 0.02425

/-- Wheel constant: `constexpr double GEAR_RATIO = 36;` -/
def GEAR_RATIO : α := 36

/-- Wheel constant: `constexpr double MAX_RPM = 15000;` -/
def MAX_RPM : α := 15000

/-- Wheel constant: `constexpr double MAX_VELOCITY = 175;` -/
def MAX_VELOCITY : α := 175

/-- Wheel constant: `constexpr double RESCALE_FACTOR = MAX_RPM / MAX_VELOCITY;` -/
def RESCALE_FACTOR : α := MAX_RPM / MAX_VELOCITY

/-- Distance from robot center to wheel contact point:
`constexpr double ROBOT_RADIUS = 0.09;` -/
def ROBOT_RADIUS : α := 0.09

/-- Degrees to radians: `constexpr double DEG2RAD = M_PI / 180.0;` -/
def DEG2RAD (M_PI : α) : α := M_PI / 180.0

/-- Motor position FR: `constexpr double FR_MOTOR_ANGLE = 30.0 * DEG2RAD;` -/
def FR_MOTOR_ANGLE (M_PI : α) : α := 30.0 * DEG2RAD M_PI

/-- Motor position FL: `constexpr double FL_MOTOR_ANGLE = 150.0 * DEG2RAD;` -/
def FL_MOTOR_ANGLE (M_PI : α) : α := 150.0 * DEG2RAD M_PI

/-- Motor position BL: `constexpr double BL_MOTOR_ANGLE = 240.0 * DEG2RAD;` -/
def BL_MOTOR_ANGLE (M_PI : α) : α := 240.0 * DEG2RAD M_PI

/-- Motor position BR: `constexpr double BR_MOTOR_ANGLE = 300.0 * DEG2RAD;` -/
def BR_MOTOR_ANGLE (M_PI : α) : α := 300.0 * DEG2RAD M_PI

/-- Tangent convention: `constexpr int TANGENT_SIGN = -1;`
(`-1` is the clockwise tangent, angle = motor - 90 degrees). -/
def TANGENT_SIGN : Int := -1

/-- Wheel position: `constexpr double FR_X = ROBOT_RADIUS * cos(FR_MOTOR_ANGLE);` -/
def FR_X (M_PI : α) (cos : α → α) : α := ROBOT_RADIUS * cos (FR_MOTOR_ANGLE M_PI)

/-- Wheel position: `constexpr double FR_Y = ROBOT_RADIUS * sin(FR_MOTOR_ANGLE);` -/
def FR_Y (M_PI : α) (sin : α → α) : α := ROBOT_RADIUS * sin (FR_MOTOR_ANGLE M_PI)

/-- Wheel position: `constexpr double FL_X = ROBOT_RADIUS * cos(FL_MOTOR_ANGLE);` -/
def FL_X (M_PI : α) (cos : α → α) : α := ROBOT_RADIUS * cos (FL_MOTOR_ANGLE M_PI)

/-- Wheel position: `constexpr double FL_Y = ROBOT_RADIUS * sin(FL_MOTOR_ANGLE);` -/
def FL_Y (M_PI : α) (sin : α → α) : α := ROBOT_RADIUS * sin (FL_MOTOR_ANGLE M_PI)

/-- Wheel position: `constexpr double BL_X = ROBOT_RADIUS * cos(BL_MOTOR_ANGLE);` -/
def BL_X (M_PI : α) (cos : α → α) : α := ROBOT_RADIUS * cos (BL_MOTOR_ANGLE M_PI)

/-- Wheel position: `constexpr double BL_Y = ROBOT_RADIUS * sin(BL_MOTOR_ANGLE);` -/
def BL_Y (M_PI : α) (sin : α → α) : α := ROBOT_RADIUS * sin (BL_MOTOR_ANGLE M_PI)

/-- Wheel position: `constexpr double BR_X = ROBOT_RADIUS * cos(BR_MOTOR_ANGLE);` -/
def BR_X (M_PI : α) (cos : α → α) : α := ROBOT_RADIUS * cos (BR_MOTOR_ANGLE M_PI)

/-- Wheel position: `constexpr double BR_Y = ROBOT_RADIUS * sin(BR_MOTOR_ANGLE);` -/
def BR_Y (M_PI : α) (sin : α → α) : α := ROBOT_RADIUS * sin (BR_MOTOR_ANGLE M_PI)

/-- Wheel drive angle:
`constexpr double FR_WHEEL_ANGLE = FR_MOTOR_ANGLE + TANGENT_SIGN * (M_PI / 2.0);` -/
def FR_WHEEL_ANGLE (M_PI : α) : α := FR_MOTOR_ANGLE M_PI + (TANGENT_SIGN : α) * (M_PI / 2.0)

/-- Wheel drive angle:
`constexpr double FL_WHEEL_ANGLE = FL_MOTOR_ANGLE + TANGENT_SIGN * (M_PI / 2.0);` -/
def FL_WHEEL_ANGLE (M_PI : α) : α := FL_MOTOR_ANGLE M_PI + (TANGENT_SIGN : α) * (M_PI / 2.0)

/-- Wheel drive angle:
`constexpr double BL_WHEEL_ANGLE = BL_MOTOR_ANGLE + TANGENT_SIGN * (M_PI / 2.0);` -/
def BL_WHEEL_ANGLE (M_PI : α) : α := BL_MOTOR_ANGLE M_PI + (TANGENT_SIGN : α) * (M_PI / 2.0)

/-- Wheel drive angle:
`constexpr double BR_WHEEL_ANGLE = BR_MOTOR_ANGLE + TANGENT_SIGN * (M_PI / 2.0);` -/
def BR_WHEEL_ANGLE (M_PI : α) : α := BR_MOTOR_ANGLE M_PI + (TANGENT_SIGN : α) * (M_PI / 2.0)

/-- Width in bytes of one wheel's slot in the frame that `valuesToBytes`
fills: the declaration pairs `std::array<int, 4>` with
`std::array<unsigned char, 8>`. -/
def BYTES_PER_WHEEL : Nat := 8 / 4

/-- Smallest value of a signed slot of `BYTES_PER_WHEEL` bytes. -/
def SLOT_MIN : Int := -(2 ^ (8 * BYTES_PER_WHEEL - 1))

/-- Largest value of a signed slot of `BYTES_PER_WHEEL` bytes. -/
def SLOT_MAX : Int := 2 ^ (8 * BYTES_PER_WHEEL - 1) - 1

end Constants

/-! ## Kinematics resolver -/

section Resolver

variable {α : Type} [LinearOrderedField α] [FloorRing α]

/-- Modelled from the spec: the choice "round/truncate to an integer" made at the
end of `getVelocityArray`, whose body is not part of the header. -/
inductive Rounding where
  | nearest
  | truncate
  deriving DecidableEq, Repr

/-- Modelled from the spec: the conversion of a scaled wheel speed to an integer
command at the end of `getVelocityArray`, whose body is not part of the header:
round to the nearest integer, or truncate toward zero (what a C++ conversion of
`double` to `int` does). -/
def toCommand (mode : Rounding) (x : α) : Int :=
  match mode with
  | Rounding.nearest => round x
  | Rounding.truncate => if 0 ≤ x then ⌊x⌋ else ⌈x⌉

/-- Modelled from the spec: the heading rotation inside `getVelocityArray`,
whose body is not part of the header.  The velocity is "optionally rotated by
heading, if the command is given in world frame and must be expressed in body
frame"; `worldFrame` selects whether the rotation is applied. -/
def bodyFrame (cos sin : α → α) (worldFrame : Bool) (heading vx vy : α) : α × α :=
  if worldFrame then
    (vx * cos heading + vy * sin heading, -vx * sin heading + vy * cos heading)
  else
    (vx, vy)

/-- Modelled from the spec: the per-wheel linear surface speed computed inside
`getVelocityArray`, whose body is not part of the header:
`wheel_linear_speed_i = vx' * cos(φ_i) + vy' * sin(φ_i) + rotV * ROBOT_RADIUS`. -/
def wheel_linear_speed (cos sin : α → α) (phi vx' vy' rotV : α) : α :=
  vx' * cos phi + vy' * sin phi + rotV * ROBOT_RADIUS

/-- Modelled from the spec: the four wheel linear speeds of a body-frame
velocity, in the fixed order FR, FL, BL, BR (the loop over the wheels inside
`getVelocityArray`, whose body is not part of the header). -/
def bodyWheelSpeeds (M_PI : α) (cos sin : α → α) (vx' vy' rotV : α) : List α :=
  [wheel_linear_speed cos sin (FR_WHEEL_ANGLE M_PI) vx' vy' rotV,
   wheel_linear_speed cos sin (FL_WHEEL_ANGLE M_PI) vx' vy' rotV,
   wheel_linear_speed cos sin (BL_WHEEL_ANGLE M_PI) vx' vy' rotV,
   wheel_linear_speed cos sin (BR_WHEEL_ANGLE M_PI) vx' vy' rotV]

/-- Modelled from the spec: the four wheel linear speeds of a command
`(heading, vx, vy, rotV)`, the heading rotation applied first (part of
`getVelocityArray`, whose body is not part of the header). -/
def wheelLinearSpeeds (M_PI : α) (cos sin : α → α) (worldFrame : Bool)
    (heading vx vy rotV : α) : List α :=
  let v := bodyFrame cos sin worldFrame heading vx vy
  bodyWheelSpeeds M_PI cos sin v.1 v.2 rotV

/-- Modelled from the spec: the conversion of a wheel linear speed to a motor
command inside `getVelocityArray`, whose body is not part of the header:
"divide by wheel radius ..., divide by gear ratio ..., then rescale to the
integer command range using RESCALE_FACTOR". -/
def scaleToCommand (linear : α) : α :=
  linear / WHEEL_RADIUS / GEAR_RATIO * RESCALE_FACTOR

/-- Modelled from the spec: `getVelocityArray(wheel_speeds, heading, vx, vy, rotV)`,
declared in the header without a body.  The previous contents of the output
array are overwritten by the four integer commands in the order FR, FL, BL, BR. -/
def getVelocityArray (M_PI : α) (cos sin : α → α) (worldFrame : Bool) (mode : Rounding)
    (_wheel_speeds : List Int) (heading vx vy rotV : α) : List Int :=
  (wheelLinearSpeeds M_PI cos sin worldFrame heading vx vy rotV).map
    fun s => toCommand mode (scaleToCommand s)

end Resolver

/-! ## Exact values of the angles over the reals -/

theorem fr_wheel_angle_real : FR_WHEEL_ANGLE Real.pi = -(Real.pi / 3) := by
  simp only [FR_WHEEL_ANGLE, FR_MOTOR_ANGLE, DEG2RAD, TANGENT_SIGN]
  push_cast
  ring

theorem fl_wheel_angle_real : FL_WHEEL_ANGLE Real.pi = Real.pi / 3 := by
  simp only [FL_WHEEL_ANGLE, FL_MOTOR_ANGLE, DEG2RAD, TANGENT_SIGN]
  push_cast
  ring

theorem bl_wheel_angle_real : BL_WHEEL_ANGLE Real.pi = Real.pi - Real.pi / 6 := by
  simp only [BL_WHEEL_ANGLE, BL_MOTOR_ANGLE, DEG2RAD, TANGENT_SIGN]
  push_cast
  ring

theorem br_wheel_angle_real : BR_WHEEL_ANGLE Real.pi = Real.pi / 6 + Real.pi := by
  simp only [BR_WHEEL_ANGLE, BR_MOTOR_ANGLE, DEG2RAD, TANGENT_SIGN]
  push_cast
  ring

/-! ## Exact values of the drive directions over the reals -/

theorem cos_fr_wheel_angle : Real.cos (FR_WHEEL_ANGLE Real.pi) = 1 / 2 := by
  rw [fr_wheel_angle_real, Real.cos_neg, Real.cos_pi_div_three]

theorem sin_fr_wheel_angle : Real.sin (FR_WHEEL_ANGLE Real.pi) = -(Real.sqrt 3 / 2) := by
  rw [fr_wheel_angle_real, Real.sin_neg, Real.sin_pi_div_three]

theorem cos_fl_wheel_angle : Real.cos (FL_WHEEL_ANGLE Real.pi) = 1 / 2 := by
  rw [fl_wheel_angle_real, Real.cos_pi_div_three]

theorem sin_fl_wheel_angle : Real.sin (FL_WHEEL_ANGLE Real.pi) = Real.sqrt 3 / 2 := by
  rw [fl_wheel_angle_real, Real.sin_pi_div_three]

theorem cos_bl_wheel_angle : Real.cos (BL_WHEEL_ANGLE Real.pi) = -(Real.sqrt 3 / 2) := by
  rw [bl_wheel_angle_real, Real.cos_pi_sub, Real.cos_pi_div_six]

theorem sin_bl_wheel_angle : Real.sin (BL_WHEEL_ANGLE Real.pi) = 1 / 2 := by
  rw [bl_wheel_angle_real, Real.sin_pi_sub, Real.sin_pi_div_six]

theorem cos_br_wheel_angle : Real.cos (BR_WHEEL_ANGLE Real.pi) = -(Real.sqrt 3 / 2) := by
  rw [br_wheel_angle_real, Real.cos_add_pi, Real.cos_pi_div_six]

theorem sin_br_wheel_angle : Real.sin (BR_WHEEL_ANGLE Real.pi) = -(1 / 2) := by
  rw [br_wheel_angle_real, Real.sin_add_pi, Real.sin_pi_div_six]

/-- Numerical enclosure of the square root of three used for the range checks. -/
theorem sqrt_three_bounds : (1.732 : ℝ) < Real.sqrt 3 ∧ Real.sqrt 3 < 1.733 := by
  constructor
  · rw [Real.lt_sqrt (by norm_num)]
    norm_num
  · rw [Real.sqrt_lt' (by norm_num)]
    norm_num

/-! ## Integer conversion keeps symmetric bounds -/

theorem toCommand_bounds {α : Type} [LinearOrderedField α] [FloorRing α]
    (mode : Rounding) (x : α) (n : Int) (hlo : -(n : α) ≤ x) (hhi : x ≤ (n : α)) :
    -n ≤ toCommand mode x ∧ toCommand mode x ≤ n := by
  have hfloor : -n ≤ ⌊x⌋ := by
    rw [Int.le_floor]
    push_cast
    exact hlo
  have hceil : ⌈x⌉ ≤ n := by
    rw [Int.ceil_le]
    exact hhi
  have hfc : ⌊x⌋ ≤ ⌈x⌉ := Int.floor_le_ceil x
  cases mode with
  | nearest =>
    simp only [toCommand]
    rw [round]
    split_ifs <;> omega
  | truncate =>
    simp only [toCommand]
    split_ifs <;> omega

theorem toCommand_zero {α : Type} [LinearOrderedField α] [FloorRing α] (mode : Rounding) :
    toCommand mode (0 : α) = 0 := by
  cases mode <;> simp [toCommand]

/-! ## Full-speed forward scenario -/

/-- C1: in the scenario heading = 0, vx = MAX_VELOCITY = 175, vy = 0, rotV = 0, for
every wheel (index 0..3 standing for FR, FL, BL, BR) the exact real value
`175 * cos(phi_i) / WHEEL_RADIUS / GEAR_RATIO * RESCALE_FACTOR` lies in
`[-MAX_RPM, MAX_RPM] = [-15000, 15000]`, and so does its conversion to an integer:
its rounding to the nearest integer and its truncation toward zero. -/
theorem max_forward_command_within_max_rpm (i : Fin 4) :
    ∃ phi x : ℝ,
      phi = ![FR_WHEEL_ANGLE Real.pi, FL_WHEEL_ANGLE Real.pi,
        BL_WHEEL_ANGLE Real.pi, BR_WHEEL_ANGLE Real.pi] i ∧
      x = MAX_VELOCITY * Real.cos phi / WHEEL_RADIUS / GEAR_RATIO * RESCALE_FACTOR ∧
      (MAX_VELOCITY : ℝ) = 175 ∧ (MAX_RPM : ℝ) = 15000 ∧
      (-MAX_RPM ≤ x ∧ x ≤ MAX_RPM) ∧
      (-15000 ≤ round x ∧ round x ≤ 15000) ∧
      (-15000 ≤ (if 0 ≤ x then ⌊x⌋ else ⌈x⌉) ∧ (if 0 ≤ x then ⌊x⌋ else ⌈x⌉) ≤ 15000) := by
  refine ⟨_, _, rfl, rfl, ?_⟩
  generalize hphi : ![FR_WHEEL_ANGLE Real.pi, FL_WHEEL_ANGLE Real.pi,
    BL_WHEEL_ANGLE Real.pi, BR_WHEEL_ANGLE Real.pi] i = phi
  generalize hxdef :
    (MAX_VELOCITY : ℝ) * Real.cos phi / WHEEL_RADIUS / GEAR_RATIO * RESCALE_FACTOR = x
  have hs := sqrt_three_bounds
  have hx : -(15000 : ℝ) ≤ x ∧ x ≤ 15000 := by
    subst hxdef
    fin_cases i
    · have hc : Real.cos phi = 1 / 2 := by
        rw [← hphi]
        exact cos_fr_wheel_angle
      simp only [hc, WHEEL_RADIUS, GEAR_RATIO, RESCALE_FACTOR, MAX_RPM, MAX_VELOCITY]
      constructor <;> norm_num
    · have hc : Real.cos phi = 1 / 2 := by
        rw [← hphi]
        exact cos_fl_wheel_angle
      simp only [hc, WHEEL_RADIUS, GEAR_RATIO, RESCALE_FACTOR, MAX_RPM, MAX_VELOCITY]
      constructor <;> norm_num
    · have hc : Real.cos phi = -(Real.sqrt 3 / 2) := by
        rw [← hphi]
        exact cos_bl_wheel_angle
      simp only [hc, WHEEL_RADIUS, GEAR_RATIO, RESCALE_FACTOR, MAX_RPM, MAX_VELOCITY]
      constructor <;> norm_num <;> linarith [hs.1, hs.2]
    · have hc : Real.cos phi = -(Real.sqrt 3 / 2) := by
        rw [← hphi]
        exact cos_br_wheel_angle
      simp only [hc, WHEEL_RADIUS, GEAR_RATIO, RESCALE_FACTOR, MAX_RPM, MAX_VELOCITY]
      constructor <;> norm_num <;> linarith [hs.1, hs.2]
  have hlo : -((15000 : Int) : ℝ) ≤ x := by exact_mod_cast hx.1
  have hhi : x ≤ ((15000 : Int) : ℝ) := by exact_mod_cast hx.2
  have hround := toCommand_bounds Rounding.nearest x 15000 hlo hhi
  have htrunc := toCommand_bounds Rounding.truncate x 15000 hlo hhi
  refine ⟨rfl, rfl, ⟨?_, ?_⟩, hround, htrunc⟩
  · simp only [MAX_RPM]
    exact hx.1
  · simp only [MAX_RPM]
    exact hx.2

/-! ## Testable properties of the resolver -/

/-- C2: for a pure forward command (vx = V, vy = 0, rotV = 0, heading = 0) and every
real V, the wheel linear speeds `vx*cos(phi_i) + vy*sin(phi_i) + rotV*ROBOT_RADIUS`
taken with the drive angles of the header are exactly `V*cos(phi_i)`, which in the
order FR, FL, BL, BR are `V/2, V/2, -(sqrt 3/2)*V, -(sqrt 3/2)*V`; the cosines of the
drive angles are `1/2, 1/2, -sqrt 3/2, -sqrt 3/2`.  It holds whether or not the
heading rotation is applied. -/
theorem pure_forward_wheel_speeds (V : ℝ) (worldFrame : Bool) :
    wheelLinearSpeeds Real.pi Real.cos Real.sin worldFrame 0 V 0 0
        = [V * Real.cos (FR_WHEEL_ANGLE Real.pi), V * Real.cos (FL_WHEEL_ANGLE Real.pi),
           V * Real.cos (BL_WHEEL_ANGLE Real.pi), V * Real.cos (BR_WHEEL_ANGLE Real.pi)] ∧
      wheelLinearSpeeds Real.pi Real.cos Real.sin worldFrame 0 V 0 0
        = [V / 2, V / 2, -(Real.sqrt 3 / 2) * V, -(Real.sqrt 3 / 2) * V] ∧
      Real.cos (FR_WHEEL_ANGLE Real.pi) = 1 / 2 ∧
      Real.cos (FL_WHEEL_ANGLE Real.pi) = 1 / 2 ∧
      Real.cos (BL_WHEEL_ANGLE Real.pi) = -(Real.sqrt 3 / 2) ∧
      Real.cos (BR_WHEEL_ANGLE Real.pi) = -(Real.sqrt 3 / 2) := by
  have hbody : bodyFrame Real.cos Real.sin worldFrame 0 V 0 = (V, 0) := by
    cases worldFrame <;> simp [bodyFrame]
  have hlin : wheelLinearSpeeds Real.pi Real.cos Real.sin worldFrame 0 V 0 0
      = [V * Real.cos (FR_WHEEL_ANGLE Real.pi), V * Real.cos (FL_WHEEL_ANGLE Real.pi),
         V * Real.cos (BL_WHEEL_ANGLE Real.pi), V * Real.cos (BR_WHEEL_ANGLE Real.pi)] := by
    simp only [wheelLinearSpeeds, hbody, bodyWheelSpeeds, wheel_linear_speed]
    simp
  refine ⟨hlin, ?_, cos_fr_wheel_angle, cos_fl_wheel_angle, cos_bl_wheel_angle,
    cos_br_wheel_angle⟩
  rw [hlin, cos_fr_wheel_angle, cos_fl_wheel_angle, cos_bl_wheel_angle, cos_br_wheel_angle]
  have e1 : V * (1 / 2) = V / 2 := by ring
  have e2 : V * -(Real.sqrt 3 / 2) = -(Real.sqrt 3 / 2) * V := by ring
  rw [e1, e2]

/-- C3: for every rotational velocity r and every heading, with vx = vy = 0, each
wheel's linear speed is `r * ROBOT_RADIUS`, so the four entries FR, FL, BL, BR that
`getVelocityArray` writes are one and the same value (equal magnitude, equal sign),
whatever the output array held before. -/
theorem pure_rotation_wheel_speeds (worldFrame : Bool) (mode : Rounding)
    (out : List Int) (heading r : ℝ) :
    wheelLinearSpeeds Real.pi Real.cos Real.sin worldFrame heading 0 0 r
        = [r * ROBOT_RADIUS, r * ROBOT_RADIUS, r * ROBOT_RADIUS, r * ROBOT_RADIUS] ∧
      getVelocityArray Real.pi Real.cos Real.sin worldFrame mode out heading 0 0 r
        = List.replicate 4 (toCommand mode (scaleToCommand (r * ROBOT_RADIUS))) := by
  have hbody : bodyFrame Real.cos Real.sin worldFrame heading 0 0 = (0, 0) := by
    cases worldFrame <;> simp [bodyFrame]
  have hlin : wheelLinearSpeeds Real.pi Real.cos Real.sin worldFrame heading 0 0 r
      = [r * ROBOT_RADIUS, r * ROBOT_RADIUS, r * ROBOT_RADIUS, r * ROBOT_RADIUS] := by
    simp only [wheelLinearSpeeds, hbody, bodyWheelSpeeds, wheel_linear_speed]
    simp
  refine ⟨hlin, ?_⟩
  simp only [getVelocityArray, hlin]
  rfl

/-- C4: for every heading h the zero command (vx = 0, vy = 0, rotV = 0) resolves to a
wheel-speed set whose four entries are all 0: `getVelocityArray(out, h, 0, 0, 0)`
leaves `out = {0, 0, 0, 0}`, whatever it held before. -/
theorem zero_command_wheel_speeds (worldFrame : Bool) (mode : Rounding)
    (out : List Int) (h : ℝ) :
    getVelocityArray Real.pi Real.cos Real.sin worldFrame mode out h 0 0 0 = [0, 0, 0, 0] := by
  have hbody : bodyFrame Real.cos Real.sin worldFrame h 0 0 = (0, 0) := by
    cases worldFrame <;> simp [bodyFrame]
  have hlin : wheelLinearSpeeds Real.pi Real.cos Real.sin worldFrame h 0 0 0
      = [0, 0, 0, 0] := by
    simp only [wheelLinearSpeeds, hbody, bodyWheelSpeeds, wheel_linear_speed]
    simp
  have hscale : scaleToCommand (0 : ℝ) = 0 := by
    simp [scaleToCommand]
  simp only [getVelocityArray, hlin, List.map_cons, List.map_nil, hscale, toCommand_zero]

/-! ## Command range and the two-byte slot -/

/-- C5: the nominal wheel-command range fits a signed 16-bit (2-byte) slot: with
`MAX_RPM = 15000`, every integer w with `-MAX_RPM <= w <= MAX_RPM` satisfies
`-32768 <= w <= 32767`, the range of the 2 bytes per wheel (8 bytes / 4 wheels) of
the frame that `valuesToBytes` fills. -/
theorem nominal_range_fits_two_byte_slot (w : Int)
    (hlo : -(MAX_RPM : ℝ) ≤ (w : ℝ)) (hhi : (w : ℝ) ≤ MAX_RPM) :
    (MAX_RPM : ℝ) = 15000 ∧ BYTES_PER_WHEEL = 2 ∧ SLOT_MIN = -32768 ∧ SLOT_MAX = 32767 ∧
      SLOT_MIN ≤ w ∧ w ≤ SLOT_MAX := by
  simp only [MAX_RPM] at hlo hhi
  have h1 : -(15000 : Int) ≤ w := by exact_mod_cast hlo
  have h2 : w ≤ (15000 : Int) := by exact_mod_cast hhi
  have hmin : SLOT_MIN = -32768 := by decide
  have hmax : SLOT_MAX = 32767 := by decide
  refine ⟨rfl, by decide, hmin, hmax, ?_, ?_⟩
  · rw [hmin]
    omega
  · rw [hmax]
    omega

/-- Witness for C5: the boundary commands `+MAX_RPM` and `-MAX_RPM` satisfy the
range hypotheses and land inside the two-byte slot. -/
theorem nominal_range_fits_two_byte_slot_witness :
    (-(MAX_RPM : ℝ) ≤ ((15000 : Int) : ℝ) ∧ ((15000 : Int) : ℝ) ≤ MAX_RPM ∧
        SLOT_MIN ≤ (15000 : Int) ∧ (15000 : Int) ≤ SLOT_MAX) ∧
      (-(MAX_RPM : ℝ) ≤ ((-15000 : Int) : ℝ) ∧ ((-15000 : Int) : ℝ) ≤ MAX_RPM ∧
        SLOT_MIN ≤ (-15000 : Int) ∧ (-15000 : Int) ≤ SLOT_MAX) := by
  have hp1 : -(MAX_RPM : ℝ) ≤ ((15000 : Int) : ℝ) := by simp only [MAX_RPM]; norm_num
  have hp2 : ((15000 : Int) : ℝ) ≤ MAX_RPM := by simp only [MAX_RPM]; norm_num
  have hn1 : -(MAX_RPM : ℝ) ≤ ((-15000 : Int) : ℝ) := by simp only [MAX_RPM]; norm_num
  have hn2 : ((-15000 : Int) : ℝ) ≤ MAX_RPM := by simp only [MAX_RPM]; norm_num
  exact ⟨⟨hp1, hp2, (nominal_range_fits_two_byte_slot 15000 hp1 hp2).2.2.2.2⟩,
    ⟨hn1, hn2, (nominal_range_fits_two_byte_slot (-15000) hn1 hn2).2.2.2.2⟩⟩

/-! ## Geometry of the mount points and drive directions -/

theorem tangent_identities (R θ : ℝ) :
    R * Real.cos θ * Real.cos (θ - Real.pi / 2) + R * Real.sin θ * Real.sin (θ - Real.pi / 2) = 0 ∧
      R * Real.cos θ * Real.sin (θ - Real.pi / 2) - R * Real.sin θ * Real.cos (θ - Real.pi / 2)
        = -R := by
  rw [Real.cos_sub_pi_div_two, Real.sin_sub_pi_div_two]
  constructor
  · ring
  · have h := Real.sin_sq_add_cos_sq θ
    have e : R * Real.cos θ * -Real.cos θ - R * Real.sin θ * Real.sin θ
        = -R * (Real.sin θ ^ 2 + Real.cos θ ^ 2) := by ring
    rw [e, h]
    ring

theorem fr_wheel_angle_tangent :
    FR_WHEEL_ANGLE Real.pi = FR_MOTOR_ANGLE Real.pi - Real.pi / 2 := by
  simp only [FR_WHEEL_ANGLE, TANGENT_SIGN]
  push_cast
  ring

theorem fl_wheel_angle_tangent :
    FL_WHEEL_ANGLE Real.pi = FL_MOTOR_ANGLE Real.pi - Real.pi / 2 := by
  simp only [FL_WHEEL_ANGLE, TANGENT_SIGN]
  push_cast
  ring

theorem bl_wheel_angle_tangent :
    BL_WHEEL_ANGLE Real.pi = BL_MOTOR_ANGLE Real.pi - Real.pi / 2 := by
  simp only [BL_WHEEL_ANGLE, TANGENT_SIGN]
  push_cast
  ring

theorem br_wheel_angle_tangent :
    BR_WHEEL_ANGLE Real.pi = BR_MOTOR_ANGLE Real.pi - Real.pi / 2 := by
  simp only [BR_WHEEL_ANGLE, TANGENT_SIGN]
  push_cast
  ring

/-- C6: for every wheel FR, FL, BL, BR the drive direction phi_i is tangent to the
robot's perimeter at the mount point, with the clockwise orientation selected by
`TANGENT_SIGN = -1` (phi_i = mount angle - 90 degrees): over the exact reals
`X_i*cos(phi_i) + Y_i*sin(phi_i) = 0` and
`X_i*sin(phi_i) - Y_i*cos(phi_i) = -ROBOT_RADIUS`. -/
theorem drive_direction_tangent_clockwise :
    TANGENT_SIGN = -1 ∧
      (FR_WHEEL_ANGLE Real.pi = FR_MOTOR_ANGLE Real.pi - Real.pi / 2 ∧
        FR_X Real.pi Real.cos * Real.cos (FR_WHEEL_ANGLE Real.pi)
          + FR_Y Real.pi Real.sin * Real.sin (FR_WHEEL_ANGLE Real.pi) = 0 ∧
        FR_X Real.pi Real.cos * Real.sin (FR_WHEEL_ANGLE Real.pi)
          - FR_Y Real.pi Real.sin * Real.cos (FR_WHEEL_ANGLE Real.pi) = -ROBOT_RADIUS) ∧
      (FL_WHEEL_ANGLE Real.pi = FL_MOTOR_ANGLE Real.pi - Real.pi / 2 ∧
        FL_X Real.pi Real.cos * Real.cos (FL_WHEEL_ANGLE Real.pi)
          + FL_Y Real.pi Real.sin * Real.sin (FL_WHEEL_ANGLE Real.pi) = 0 ∧
        FL_X Real.pi Real.cos * Real.sin (FL_WHEEL_ANGLE Real.pi)
          - FL_Y Real.pi Real.sin * Real.cos (FL_WHEEL_ANGLE Real.pi) = -ROBOT_RADIUS) ∧
      (BL_WHEEL_ANGLE Real.pi = BL_MOTOR_ANGLE Real.pi - Real.pi / 2 ∧
        BL_X Real.pi Real.cos * Real.cos (BL_WHEEL_ANGLE Real.pi)
          + BL_Y Real.pi Real.sin * Real.sin (BL_WHEEL_ANGLE Real.pi) = 0 ∧
        BL_X Real.pi Real.cos * Real.sin (BL_WHEEL_ANGLE Real.pi)
          - BL_Y Real.pi Real.sin * Real.cos (BL_WHEEL_ANGLE Real.pi) = -ROBOT_RADIUS) ∧
      (BR_WHEEL_ANGLE Real.pi = BR_MOTOR_ANGLE Real.pi - Real.pi / 2 ∧
        BR_X Real.pi Real.cos * Real.cos (BR_WHEEL_ANGLE Real.pi)
          + BR_Y Real.pi Real.sin * Real.sin (BR_WHEEL_ANGLE Real.pi) = 0 ∧
        BR_X Real.pi Real.cos * Real.sin (BR_WHEEL_ANGLE Real.pi)
          - BR_Y Real.pi Real.sin * Real.cos (BR_WHEEL_ANGLE Real.pi) = -ROBOT_RADIUS) := by
  refine ⟨rfl, ⟨fr_wheel_angle_tangent, ?_, ?_⟩, ⟨fl_wheel_angle_tangent, ?_, ?_⟩,
    ⟨bl_wheel_angle_tangent, ?_, ?_⟩, ⟨br_wheel_angle_tangent, ?_, ?_⟩⟩
  · rw [fr_wheel_angle_tangent]
    exact (tangent_identities ROBOT_RADIUS (FR_MOTOR_ANGLE Real.pi)).1
  · rw [fr_wheel_angle_tangent]
    exact (tangent_identities ROBOT_RADIUS (FR_MOTOR_ANGLE Real.pi)).2
  · rw [fl_wheel_angle_tangent]
    exact (tangent_identities ROBOT_RADIUS (FL_MOTOR_ANGLE Real.pi)).1
  · rw [fl_wheel_angle_tangent]
    exact (tangent_identities ROBOT_RADIUS (FL_MOTOR_ANGLE Real.pi)).2
  · rw [bl_wheel_angle_tangent]
    exact (tangent_identities ROBOT_RADIUS (BL_MOTOR_ANGLE Real.pi)).1
  · rw [bl_wheel_angle_tangent]
    exact (tangent_identities ROBOT_RADIUS (BL_MOTOR_ANGLE Real.pi)).2
  · rw [br_wheel_angle_tangent]
    exact (tangent_identities ROBOT_RADIUS (BR_MOTOR_ANGLE Real.pi)).1
  · rw [br_wheel_angle_tangent]
    exact (tangent_identities ROBOT_RADIUS (BR_MOTOR_ANGLE Real.pi)).2

/-- C7: the four wheel mount angles, in the fixed order FR, FL, BL, BR, are 30, 150,
240 and 300 degrees in radians (`DEG2RAD = pi/180`): `pi/6`, `5*pi/6`, `4*pi/3`,
`5*pi/3`; the wheel positions and the wheel drive angles are derived from them in
that same order. -/
theorem mount_angles_in_wheel_order :
    DEG2RAD Real.pi = Real.pi / 180 ∧
      (FR_MOTOR_ANGLE Real.pi = Real.pi / 6 ∧
        FL_MOTOR_ANGLE Real.pi = 5 * Real.pi / 6 ∧
        BL_MOTOR_ANGLE Real.pi = 4 * Real.pi / 3 ∧
        BR_MOTOR_ANGLE Real.pi = 5 * Real.pi / 3) ∧
      (FR_X Real.pi Real.cos = ROBOT_RADIUS * Real.cos (Real.pi / 6) ∧
        FR_Y Real.pi Real.sin = ROBOT_RADIUS * Real.sin (Real.pi / 6) ∧
        FL_X Real.pi Real.cos = ROBOT_RADIUS * Real.cos (5 * Real.pi / 6) ∧
        FL_Y Real.pi Real.sin = ROBOT_RADIUS * Real.sin (5 * Real.pi / 6) ∧
        BL_X Real.pi Real.cos = ROBOT_RADIUS * Real.cos (4 * Real.pi / 3) ∧
        BL_Y Real.pi Real.sin = ROBOT_RADIUS * Real.sin (4 * Real.pi / 3) ∧
        BR_X Real.pi Real.cos = ROBOT_RADIUS * Real.cos (5 * Real.pi / 3) ∧
        BR_Y Real.pi Real.sin = ROBOT_RADIUS * Real.sin (5 * Real.pi / 3)) ∧
      (FR_WHEEL_ANGLE Real.pi = Real.pi / 6 + TANGENT_SIGN * (Real.pi / 2) ∧
        FL_WHEEL_ANGLE Real.pi = 5 * Real.pi / 6 + TANGENT_SIGN * (Real.pi / 2) ∧
        BL_WHEEL_ANGLE Real.pi = 4 * Real.pi / 3 + TANGENT_SIGN * (Real.pi / 2) ∧
        BR_WHEEL_ANGLE Real.pi = 5 * Real.pi / 3 + TANGENT_SIGN * (Real.pi / 2)) := by
  have hd : DEG2RAD Real.pi = Real.pi / 180 := by
    simp only [DEG2RAD]
    norm_num
  have hfr : FR_MOTOR_ANGLE Real.pi = Real.pi / 6 := by
    simp only [FR_MOTOR_ANGLE, hd]
    ring
  have hfl : FL_MOTOR_ANGLE Real.pi = 5 * Real.pi / 6 := by
    simp only [FL_MOTOR_ANGLE, hd]
    ring
  have hbl : BL_MOTOR_ANGLE Real.pi = 4 * Real.pi / 3 := by
    simp only [BL_MOTOR_ANGLE, hd]
    ring
  have hbr : BR_MOTOR_ANGLE Real.pi = 5 * Real.pi / 3 := by
    simp only [BR_MOTOR_ANGLE, hd]
    ring
  have h2 : Real.pi / 2.0 = Real.pi / 2 := by norm_num
  refine ⟨hd, ⟨hfr, hfl, hbl, hbr⟩, ⟨?_, ?_, ?_, ?_, ?_, ?_, ?_, ?_⟩, ⟨?_, ?_, ?_, ?_⟩⟩
  · rw [FR_X, hfr]
  · rw [FR_Y, hfr]
  · rw [FL_X, hfl]
  · rw [FL_Y, hfl]
  · rw [BL_X, hbl]
  · rw [BL_Y, hbl]
  · rw [BR_X, hbr]
  · rw [BR_Y, hbr]
  · rw [FR_WHEEL_ANGLE, hfr, h2]
  · rw [FL_WHEEL_ANGLE, hfl, h2]
  · rw [BL_WHEEL_ANGLE, hbl, h2]
  · rw [BR_WHEEL_ANGLE, hbr, h2]

/-! ## Scaling constants -/

/-- C8: `RESCALE_FACTOR = MAX_RPM / MAX_VELOCITY = 15000 / 175 = 600/7` exactly, so
`MAX_VELOCITY * RESCALE_FACTOR = MAX_RPM` and, for every real v with
`|v| <= MAX_VELOCITY`, `|v * RESCALE_FACTOR| <= MAX_RPM`. -/
theorem rescale_factor_maps_max_velocity_to_max_rpm :
    (RESCALE_FACTOR : ℝ) = MAX_RPM / MAX_VELOCITY ∧
      (RESCALE_FACTOR : ℝ) = 15000 / 175 ∧
      (RESCALE_FACTOR : ℝ) = 600 / 7 ∧
      (MAX_VELOCITY : ℝ) * RESCALE_FACTOR = MAX_RPM ∧
      ∀ v : ℝ, |v| ≤ MAX_VELOCITY → |v * RESCALE_FACTOR| ≤ MAX_RPM := by
  refine ⟨rfl, rfl, ?_, ?_, ?_⟩
  · simp only [RESCALE_FACTOR, MAX_RPM, MAX_VELOCITY]
    norm_num
  · simp only [RESCALE_FACTOR, MAX_RPM, MAX_VELOCITY]
    norm_num
  · intro v hv
    simp only [RESCALE_FACTOR, MAX_RPM, MAX_VELOCITY] at hv ⊢
    rw [abs_mul]
    have h1 : |(15000 : ℝ) / 175| = 600 / 7 := by
      rw [abs_of_pos (by norm_num)]
      norm_num
    rw [h1]
    linarith

/-- Witness for C8: the extreme velocities `175` and `-175` meet the hypothesis
`|v| <= MAX_VELOCITY` and are scaled to commands of magnitude at most `MAX_RPM`. -/
theorem rescale_factor_maps_max_velocity_to_max_rpm_witness :
    (|(175 : ℝ)| ≤ MAX_VELOCITY ∧ |(175 : ℝ) * RESCALE_FACTOR| ≤ MAX_RPM) ∧
      (|(-175 : ℝ)| ≤ MAX_VELOCITY ∧ |(-175 : ℝ) * RESCALE_FACTOR| ≤ MAX_RPM) := by
  have hp : |(175 : ℝ)| ≤ MAX_VELOCITY := by
    simp only [MAX_VELOCITY]
    norm_num
  have hn : |(-175 : ℝ)| ≤ MAX_VELOCITY := by
    simp only [MAX_VELOCITY]
    norm_num
  exact ⟨⟨hp, rescale_factor_maps_max_velocity_to_max_rpm.2.2.2.2 175 hp⟩,
    ⟨hn, rescale_factor_maps_max_velocity_to_max_rpm.2.2.2.2 (-175) hn⟩⟩

/-- C9: the linear-speed-to-command gain `RESCALE_FACTOR / (WHEEL_RADIUS * GEAR_RATIO)`
is strictly greater than `RESCALE_FACTOR`, because
`WHEEL_RADIUS * GEAR_RATIO = 0.02425 * 36 = 0.873 < 1`; consequently a command with
rotV = 0 and speed `sqrt(vx^2 + vy^2) = MAX_VELOCITY` directed along a wheel's drive
angle phi_i (any of FR, FL, BL, BR, indexed 0..3) has the unclamped wheel command
`(vx*cos(phi_i) + vy*sin(phi_i)) / WHEEL_RADIUS / GEAR_RATIO * RESCALE_FACTOR`
`= 15000 / 0.873`, which exceeds `MAX_RPM`. -/
theorem gain_exceeds_rescale_factor (i : Fin 4) :
    (WHEEL_RADIUS : ℝ) * GEAR_RATIO = 0.873 ∧
      (WHEEL_RADIUS : ℝ) * GEAR_RATIO < 1 ∧
      (RESCALE_FACTOR : ℝ) < RESCALE_FACTOR / (WHEEL_RADIUS * GEAR_RATIO) ∧
      ∃ phi vx vy cmd : ℝ,
        phi = ![FR_WHEEL_ANGLE Real.pi, FL_WHEEL_ANGLE Real.pi,
          BL_WHEEL_ANGLE Real.pi, BR_WHEEL_ANGLE Real.pi] i ∧
        vx = 175 * Real.cos phi ∧
        vy = 175 * Real.sin phi ∧
        cmd = (vx * Real.cos phi + vy * Real.sin phi) / WHEEL_RADIUS / GEAR_RATIO
          * RESCALE_FACTOR ∧
        Real.sqrt (vx ^ 2 + vy ^ 2) = MAX_VELOCITY ∧
        cmd = 15000 / 0.873 ∧
        (MAX_RPM : ℝ) < cmd := by
  generalize ![FR_WHEEL_ANGLE Real.pi, FL_WHEEL_ANGLE Real.pi,
    BL_WHEEL_ANGLE Real.pi, BR_WHEEL_ANGLE Real.pi] i = phi
  obtain ⟨vx, hvx⟩ : ∃ vx : ℝ, vx = 175 * Real.cos phi := ⟨_, rfl⟩
  obtain ⟨vy, hvy⟩ : ∃ vy : ℝ, vy = 175 * Real.sin phi := ⟨_, rfl⟩
  obtain ⟨cmd, hcmddef⟩ : ∃ cmd : ℝ, cmd = (vx * Real.cos phi + vy * Real.sin phi)
    / WHEEL_RADIUS / GEAR_RATIO * RESCALE_FACTOR := ⟨_, rfl⟩
  have hcs : Real.cos phi ^ 2 + Real.sin phi ^ 2 = 1 := Real.cos_sq_add_sin_sq phi
  have hprod : (WHEEL_RADIUS : ℝ) * GEAR_RATIO = 0.873 := by
    simp only [WHEEL_RADIUS, GEAR_RATIO]
    norm_num
  have hdot : vx * Real.cos phi + vy * Real.sin phi = 175 := by
    have e : vx * Real.cos phi + vy * Real.sin phi
        = 175 * (Real.cos phi ^ 2 + Real.sin phi ^ 2) := by
      rw [hvx, hvy]
      ring
    rw [e, hcs]
    ring
  have hnorm : vx ^ 2 + vy ^ 2 = 175 ^ 2 := by
    have e : vx ^ 2 + vy ^ 2 = 175 ^ 2 * (Real.cos phi ^ 2 + Real.sin phi ^ 2) := by
      rw [hvx, hvy]
      ring
    rw [e, hcs]
    ring
  have hcmd : cmd = 15000 / 0.873 := by
    rw [hcmddef, hdot]
    simp only [WHEEL_RADIUS, GEAR_RATIO, RESCALE_FACTOR, MAX_RPM, MAX_VELOCITY]
    norm_num
  refine ⟨hprod, ?_, ?_, phi, vx, vy, cmd, rfl, hvx, hvy, hcmddef, ?_, hcmd, ?_⟩
  · rw [hprod]
    norm_num
  · rw [hprod]
    simp only [RESCALE_FACTOR, MAX_RPM, MAX_VELOCITY]
    norm_num
  · rw [hnorm, Real.sqrt_sq (by norm_num)]
    rfl
  · rw [hcmd]
    simp only [MAX_RPM]
    norm_num

/-! ## Injectivity of the kinematics map -/

theorem sqrt_three_pos : 0 < Real.sqrt 3 := Real.sqrt_pos.mpr (by norm_num)

theorem bodyWheelSpeeds_real (vx vy rotV : ℝ) :
    bodyWheelSpeeds Real.pi Real.cos Real.sin vx vy rotV
      = [vx * (1 / 2) + vy * -(Real.sqrt 3 / 2) + rotV * ROBOT_RADIUS,
         vx * (1 / 2) + vy * (Real.sqrt 3 / 2) + rotV * ROBOT_RADIUS,
         vx * -(Real.sqrt 3 / 2) + vy * (1 / 2) + rotV * ROBOT_RADIUS,
         vx * -(Real.sqrt 3 / 2) + vy * -(1 / 2) + rotV * ROBOT_RADIUS] := by
  simp only [bodyWheelSpeeds, wheel_linear_speed, cos_fr_wheel_angle, sin_fr_wheel_angle,
    cos_fl_wheel_angle, sin_fl_wheel_angle, cos_bl_wheel_angle, sin_bl_wheel_angle,
    cos_br_wheel_angle, sin_br_wheel_angle]

theorem bodyWheelSpeeds_eq_imp (vx vy rotV vx2 vy2 rotV2 : ℝ)
    (h : bodyWheelSpeeds Real.pi Real.cos Real.sin vx vy rotV
      = bodyWheelSpeeds Real.pi Real.cos Real.sin vx2 vy2 rotV2) :
    vx = vx2 ∧ vy = vy2 ∧ rotV = rotV2 := by
  rw [bodyWheelSpeeds_real, bodyWheelSpeeds_real] at h
  simp only [List.cons.injEq, and_true] at h
  obtain ⟨h1, h2, h3, h4⟩ := h
  have hs := sqrt_three_pos
  simp only [ROBOT_RADIUS] at h1 h2 h3 h4
  have hy : vy = vy2 := by
    have e : (vy - vy2) * Real.sqrt 3 = 0 := by linarith
    rcases mul_eq_zero.mp e with h0 | h0
    · linarith
    · linarith
  subst hy
  have hx : vx = vx2 := by
    have e : (vx - vx2) * (1 + Real.sqrt 3) = 0 := by linarith
    rcases mul_eq_zero.mp e with h0 | h0
    · linarith
    · linarith
  subst hx
  refine ⟨rfl, rfl, ?_⟩
  norm_num at h1
  linarith

theorem bodyWheelSpeeds_zero :
    bodyWheelSpeeds Real.pi Real.cos Real.sin 0 0 0 = [0, 0, 0, 0] := by
  simp [bodyWheelSpeeds, wheel_linear_speed]

theorem kinematics_matrix_rank :
    (Matrix.of ![![Real.cos (FR_WHEEL_ANGLE Real.pi), Real.sin (FR_WHEEL_ANGLE Real.pi),
          ROBOT_RADIUS],
        ![Real.cos (FL_WHEEL_ANGLE Real.pi), Real.sin (FL_WHEEL_ANGLE Real.pi), ROBOT_RADIUS],
        ![Real.cos (BL_WHEEL_ANGLE Real.pi), Real.sin (BL_WHEEL_ANGLE Real.pi), ROBOT_RADIUS],
        ![Real.cos (BR_WHEEL_ANGLE Real.pi), Real.sin (BR_WHEEL_ANGLE Real.pi), ROBOT_RADIUS]]
      : Matrix (Fin 4) (Fin 3) ℝ).rank = 3 := by
  rw [Matrix.rank, LinearMap.finrank_range_of_inj]
  · simp
  · rw [injective_iff_map_eq_zero]
    intro v hv
    have h0 := congr_fun hv 0
    have h1 := congr_fun hv 1
    have h2 := congr_fun hv 2
    have h3 := congr_fun hv 3
    simp [Matrix.mulVec, Matrix.dotProduct, Fin.sum_univ_three] at h0 h1 h2 h3
    have hl : bodyWheelSpeeds Real.pi Real.cos Real.sin (v 0) (v 1) (v 2)
        = bodyWheelSpeeds Real.pi Real.cos Real.sin 0 0 0 := by
      rw [bodyWheelSpeeds_zero]
      simp only [bodyWheelSpeeds, wheel_linear_speed, List.cons.injEq, and_true]
      refine ⟨?_, ?_, ?_, ?_⟩
      · rw [← h0]
        ring
      · rw [← h1]
        ring
      · rw [← h2]
        ring
      · rw [← h3]
        ring
    have hz := bodyWheelSpeeds_eq_imp _ _ _ _ _ _ hl
    funext i
    fin_cases i <;> simp [hz.1, hz.2.1, hz.2.2]

/-- C10: with the header's geometry (the four drive angles and `ROBOT_RADIUS = 0.09`)
the linear map sending a body-frame command `(vx, vy, rotV)` to the four wheel linear
speeds `vx*cos(phi_i) + vy*sin(phi_i) + rotV*ROBOT_RADIUS`, i = FR, FL, BL, BR, is
injective over the reals: two commands with the same four wheel linear speeds are
equal (the 4x3 kinematics matrix with rows `(cos phi_i, sin phi_i, ROBOT_RADIUS)` has
rank 3), and the only command with all-zero wheel linear speeds is the zero
command. -/
theorem wheel_speed_map_injective :
    (ROBOT_RADIUS : ℝ) = 0.09 ∧
      (∀ vx vy rotV vx2 vy2 rotV2 : ℝ,
        bodyWheelSpeeds Real.pi Real.cos Real.sin vx vy rotV
          = bodyWheelSpeeds Real.pi Real.cos Real.sin vx2 vy2 rotV2 →
        vx = vx2 ∧ vy = vy2 ∧ rotV = rotV2) ∧
      (Matrix.of ![![Real.cos (FR_WHEEL_ANGLE Real.pi), Real.sin (FR_WHEEL_ANGLE Real.pi),
            ROBOT_RADIUS],
          ![Real.cos (FL_WHEEL_ANGLE Real.pi), Real.sin (FL_WHEEL_ANGLE Real.pi), ROBOT_RADIUS],
          ![Real.cos (BL_WHEEL_ANGLE Real.pi), Real.sin (BL_WHEEL_ANGLE Real.pi), ROBOT_RADIUS],
          ![Real.cos (BR_WHEEL_ANGLE Real.pi), Real.sin (BR_WHEEL_ANGLE Real.pi), ROBOT_RADIUS]]
        : Matrix (Fin 4) (Fin 3) ℝ).rank = 3 ∧
      (∀ vx vy rotV : ℝ,
        bodyWheelSpeeds Real.pi Real.cos Real.sin vx vy rotV = [0, 0, 0, 0] →
        vx = 0 ∧ vy = 0 ∧ rotV = 0) := by
  refine ⟨rfl, bodyWheelSpeeds_eq_imp, kinematics_matrix_rank, ?_⟩
  intro vx vy rotV h
  exact bodyWheelSpeeds_eq_imp vx vy rotV 0 0 0 (h.trans bodyWheelSpeeds_zero.symm)

/-- Witness for C10: the zero command does have all-zero wheel linear speeds, and
the command `(1, 0, 0)`, written in two ways, has equal wheel linear speeds. -/
theorem wheel_speed_map_injective_witness :
    (bodyWheelSpeeds Real.pi Real.cos Real.sin 0 0 0 = [0, 0, 0, 0] ∧
        (0 : ℝ) = 0 ∧ (0 : ℝ) = 0 ∧ (0 : ℝ) = 0) ∧
      (bodyWheelSpeeds Real.pi Real.cos Real.sin (2 - 1) 0 0
          = bodyWheelSpeeds Real.pi Real.cos Real.sin 1 (3 - 3) 0 ∧
        (2 - 1 : ℝ) = 1 ∧ (0 : ℝ) = 3 - 3 ∧ (0 : ℝ) = 0) := by
  have hz := bodyWheelSpeeds_zero
  have he : bodyWheelSpeeds Real.pi Real.cos Real.sin (2 - 1) 0 0
      = bodyWheelSpeeds Real.pi Real.cos Real.sin 1 (3 - 3) 0 := by
    norm_num
  exact ⟨⟨hz, wheel_speed_map_injective.2.2.2 0 0 0 hz⟩,
    ⟨he, wheel_speed_map_injective.2.1 (2 - 1) 0 0 1 (3 - 3) 0 he⟩⟩

end VelocityConversions
